import Mathlib

/-!
Shallow embedding of `app/main.py` (SDN sanctions-list API).

The module keeps a process-wide cache (`_Cache`: optional row list plus a
timestamp), refreshes it lazily from an upstream CSV URL inside
`_fetch_csv_rows`, and serves two endpoints: `/getsdn` (substring search over
the cached rows) and `/healthz` (health report).  The network fetch and the
CSV decode are external effects; here each refresh cycle is driven by an
explicit `UpstreamEvent` describing the outcome the outside world produced
(fetch exception, decode exception, or a successfully decoded row list), and
the mutable cache becomes explicit state passing.  Time (`time.time()`) is an
explicit `Int` argument.
-/

/-- One decoded CSV data row (`csv.DictReader` dict).  The code only reads the
`name` key for matching and the seven public keys for the response projection;
`schema` and `aliases` stand for columns that are decoded but never projected.
A `none` field is a column that is absent (or `None`) in the dict. -/
structure RawRow where
  id : Option String
  schema : Option String
  name : Option String
  aliases : Option String
  birth_date : Option String
  countries : Option String
  addresses : Option String
  sanctions : Option String
  dataset : Option String
deriving DecidableEq

/-- `SdnItem` pydantic model: the projection of a raw row into the public
response fields (`model_validate` with `extra = "ignore"`). -/
structure SdnItem where
  id : Option String
  name : Option String
  birth_date : Option String
  countries : Option String
  addresses : Option String
  sanctions : Option String
  dataset : Option String
deriving DecidableEq

/-- `SdnItem.model_validate(r)`: keep the seven public fields, drop the rest. -/
def projectRecord (r : RawRow) : SdnItem :=
  ⟨r.id, r.name, r.birth_date, r.countries, r.addresses, r.sanctions, r.dataset⟩

/-- `SdnResponse` pydantic model. -/
structure SdnResponse where
  count : Nat
  results : List SdnItem
deriving DecidableEq

/-- `HealthzResponse` pydantic model. -/
structure HealthzResponse where
  status : String
  rows : Option Nat
  source : String
  detail : Option String
deriving DecidableEq

/-- The `_Cache` class: `rows: Optional[List[dict]] = None`, `ts: float = 0.0`. -/
structure CacheState where
  rows : Option (List RawRow)
  ts : Int
deriving DecidableEq

/-- The module-level `cache = _Cache()` initial value. -/
def initialCache : CacheState := ⟨none, 0⟩

/-- Default of `SDN_CACHE_TTL`. -/
def defaultTtl : Nat := 3600

/-- Default of `SDN_RESULT_LIMIT` (`RESULT_LIMIT`). -/
def defaultLimit : Nat := 200

/-- Outcome of the external part of one refresh cycle: the `httpx` GET either
raises (transport error, timeout, or `raise_for_status` on a non-2xx reply),
or yields text whose `csv.DictReader` decode either raises or yields a row
list.  The carried string is the exception text interpolated into the detail. -/
inductive UpstreamEvent where
  | fetchFail (msg : String)
  | decodeFail (msg : String)
  | success (rows : List RawRow)
deriving DecidableEq

/-- Errors raised to the HTTP layer: FastAPI's request-validation rejection
(for the `min_length=2` query-parameter constraint) or an `HTTPException`
with a status code and a detail string. -/
inductive HError where
  | validation
  | http (status : Nat) (detail : String)
deriving DecidableEq

/-- `str(e.detail)` of an `HTTPException` (the validation case never reaches
the handlers' `except` blocks; any string works for totality). -/
def detailOf : HError → String
  | HError.validation => "request validation failed"
  | HError.http _ d => d

/-- Python `name.lower()` on a string (codepoint-wise lowercasing). -/
def lowerStr (s : String) : String := ⟨s.data.map Char.toLower⟩

/-- Python `s.strip()`: drop whitespace from both ends. -/
def trimStr (s : String) : String :=
  ⟨((s.data.dropWhile Char.isWhitespace).reverse.dropWhile Char.isWhitespace).reverse⟩

/-- Whether `needle` starts `hay` (helper for substring containment). -/
def leadMatch : List Char → List Char → Bool
  | [], _ => true
  | _ :: _, [] => false
  | a :: as, b :: bs => a == b && leadMatch as bs

/-- Python `needle in hay` on strings: contiguous codepoint containment
(the empty needle is contained in every string). -/
def containsSub (hay needle : List Char) : Bool :=
  match hay with
  | [] => needle.isEmpty
  | _ :: t => leadMatch needle hay || containsSub t needle

/-- The list comprehension
`[r for r in rows if q in (r.get("name") or "").lower()]`. -/
def sdnMatches (rows : List RawRow) (q : String) : List RawRow :=
  rows.filter (fun r => containsSub (lowerStr (r.name.getD "")).data q.data)

/-- The refresh cycle inside `_fetch_csv_rows` after the cache check: fetch
(raises → HTTP 503), decode (raises → HTTP 500), then store `rows` and `now`
into the cache and return the rows. -/
def refreshCycle (st : CacheState) (now : Int) (ev : UpstreamEvent) :
    Except HError (List RawRow) × CacheState :=
  match ev with
  | UpstreamEvent.fetchFail m =>
      (Except.error (HError.http 503 ("Failed to fetch SDN data: " ++ m)), st)
  | UpstreamEvent.decodeFail m =>
      (Except.error (HError.http 500 ("Failed to parse SDN CSV: " ++ m)), st)
  | UpstreamEvent.success rows =>
      (Except.ok rows, ⟨some rows, now⟩)

/-- `_fetch_csv_rows`: serve the cached rows while
`cache.rows is not None and (now - cache.ts) < CACHE_TTL_SECONDS`, otherwise
run a refresh cycle. -/
def fetchCsvRows (ttl : Nat) (st : CacheState) (now : Int) (ev : UpstreamEvent) :
    Except HError (List RawRow) × CacheState :=
  match st.rows with
  | some rs =>
      if now - st.ts < (ttl : Int) then (Except.ok rs, st)
      else refreshCycle st now ev
  | none => refreshCycle st now ev

/-- The `cache.rows is not None and (now - cache.ts) < CACHE_TTL_SECONDS`
condition as a boolean. -/
def cacheHitB (ttl : Nat) (st : CacheState) (now : Int) : Bool :=
  match st.rows with
  | some _ => decide (now - st.ts < (ttl : Int))
  | none => false

/-- The `/getsdn` handler.  FastAPI checks `Query(..., min_length=2)` on the
raw `name` string before the handler body runs; the body then fetches rows,
computes `q = name.lower().strip()`, filters, truncates to `RESULT_LIMIT`,
and projects. -/
def getsdn (ttl limit : Nat) (st : CacheState) (now : Int) (ev : UpstreamEvent)
    (name : String) : Except HError SdnResponse × CacheState :=
  if name.length < 2 then (Except.error HError.validation, st)
  else
    match fetchCsvRows ttl st now ev with
    | (Except.error e, st2) => (Except.error e, st2)
    | (Except.ok rows, st2) =>
        let q := trimStr (lowerStr name)
        let ms := sdnMatches rows q
        (Except.ok ⟨ms.length, (ms.take limit).map projectRecord⟩, st2)

/-- The `/healthz` handler: try `_fetch_csv_rows`; on success report ok with
the row count, on `HTTPException` report degraded with its detail. -/
def healthz (ttl : Nat) (url : String) (st : CacheState) (now : Int)
    (ev : UpstreamEvent) : HealthzResponse × CacheState :=
  match fetchCsvRows ttl st now ev with
  | (Except.ok rows, st2) => (⟨"ok", some rows.length, url, none⟩, st2)
  | (Except.error e, st2) => (⟨"degraded", none, url, some (detailOf e)⟩, st2)

/-!
Interleaving model for the concurrency claim.  Under asyncio, each `/getsdn`
or `/healthz` request runs `_fetch_csv_rows` as a coroutine: the segment from
entry (reading `now` and checking the cache) up to `await client.get(...)`
runs atomically, the coroutine then suspends at the await, and on resumption
the decode/store/return segment again runs atomically.  A task is therefore
in one of three phases, and the scheduler interleaves whole segments. -/

deriving instance DecidableEq for Except

/-- Phase of one in-flight `_fetch_csv_rows` coroutine: not yet started,
suspended at `await client.get` (remembering the `now` read at entry), or
finished with its result. -/
inductive Phase where
  | start
  | awaitingFetch (now : Int)
  | done (result : Except HError (List RawRow))
deriving DecidableEq

/-- The whole system: the shared cache, the task phases, and a counter of
upstream GETs issued so far. -/
structure Sys where
  cache : CacheState
  tasks : List Phase
  fetches : Nat
deriving DecidableEq

/-- Run task `i`'s first segment: read `now`, check the cache; on a hit finish
with the cached rows, on a miss issue the upstream GET and suspend. -/
def stepRun (ttl : Nat) (s : Sys) (i : Nat) (now : Int) : Sys :=
  match s.tasks.get? i with
  | some Phase.start =>
      match s.cache.rows with
      | some rs =>
          if now - s.cache.ts < (ttl : Int) then
            { s with tasks := s.tasks.set i (Phase.done (Except.ok rs)) }
          else
            { s with tasks := s.tasks.set i (Phase.awaitingFetch now),
                     fetches := s.fetches + 1 }
      | none =>
          { s with tasks := s.tasks.set i (Phase.awaitingFetch now),
                   fetches := s.fetches + 1 }
  | _ => s

/-- Resume task `i` from its await with the outcome of its own GET: failure
paths raise without touching the cache, success stores the rows under the
task's entry-time `now` and returns them. -/
def stepResolve (s : Sys) (i : Nat) (ev : UpstreamEvent) : Sys :=
  match s.tasks.get? i with
  | some (Phase.awaitingFetch now) =>
      match ev with
      | UpstreamEvent.fetchFail m =>
          let p := Phase.done (Except.error (HError.http 503 ("Failed to fetch SDN data: " ++ m)))
          { s with tasks := s.tasks.set i p }
      | UpstreamEvent.decodeFail m =>
          let p := Phase.done (Except.error (HError.http 500 ("Failed to parse SDN CSV: " ++ m)))
          { s with tasks := s.tasks.set i p }
      | UpstreamEvent.success rows =>
          { s with cache := ⟨some rows, now⟩,
                   tasks := s.tasks.set i (Phase.done (Except.ok rows)) }
  | _ => s

/-- A sample row used by concrete instances below. -/
def jqp : RawRow :=
  ⟨some "1", none, some "John Q. Public", none, none, none, none, none, none⟩

/-! Helper lemmas -/

/-- `_fetch_csv_rows` only ever raises `HTTPException`s, never a request
validation error. -/
theorem fetchCsvRows_ne_validation (ttl : Nat) (st : CacheState) (now : Int)
    (ev : UpstreamEvent) :
    (fetchCsvRows ttl st now ev).fst ≠ Except.error HError.validation := by
  obtain ⟨rcur, ts⟩ := st
  cases rcur with
  | none => cases ev <;> simp [fetchCsvRows, refreshCycle]
  | some rs =>
    by_cases hf : now - ts < (ttl : Int)
    · simp [fetchCsvRows, hf]
    · cases ev <;> simp [fetchCsvRows, refreshCycle, hf]

/-! Claims -/

/-- C5: with a current snapshot strictly younger than the TTL,
`_fetch_csv_rows` returns the cached rows unchanged, without touching the
upstream (the result does not depend on the upstream event) and without
modifying the cache state. -/
theorem c5_fresh_cache_hit_no_fetch (ttl : Nat) (st : CacheState) (now : Int)
    (ev : UpstreamEvent) (rs : List RawRow)
    (hrows : st.rows = some rs) (hfresh : now - st.ts < (ttl : Int)) :
    fetchCsvRows ttl st now ev = (Except.ok rs, st) := by
  unfold fetchCsvRows
  rw [hrows]
  simp [hfresh]

/-- Witness for C5: a snapshot fetched at t=100 is served again at t=110
under TTL=3600, even though the upstream would fail if contacted. -/
theorem c5_fresh_cache_hit_no_fetch_witness :
    fetchCsvRows 3600 ⟨some [jqp], 100⟩ 110 (UpstreamEvent.fetchFail "net") =
      (Except.ok [jqp], ⟨some [jqp], 100⟩) :=
  c5_fresh_cache_hit_no_fetch 3600 ⟨some [jqp], 100⟩ 110
    (UpstreamEvent.fetchFail "net") [jqp] rfl (by decide)

/-- C6: `_fetch_csv_rows` fails with HTTP 503 (fetch detail) exactly when the
cache misses and the fetch step fails, and with HTTP 500 (parse detail)
exactly when the cache misses and the decode step fails; there are no other
failure modes. -/
theorem c6_error_taxonomy (ttl : Nat) (st : CacheState) (now : Int)
    (ev : UpstreamEvent) (e : HError) :
    (fetchCsvRows ttl st now ev).fst = Except.error e ↔
      cacheHitB ttl st now = false ∧
      ((∃ m, ev = UpstreamEvent.fetchFail m ∧
          e = HError.http 503 ("Failed to fetch SDN data: " ++ m)) ∨
       (∃ m, ev = UpstreamEvent.decodeFail m ∧
          e = HError.http 500 ("Failed to parse SDN CSV: " ++ m))) := by
  obtain ⟨rcur, ts⟩ := st
  cases rcur with
  | none => cases ev <;> simp [fetchCsvRows, refreshCycle, cacheHitB, eq_comm]
  | some rs =>
    by_cases hf : now - ts < (ttl : Int)
    · simp [fetchCsvRows, cacheHitB, hf]
    · cases ev <;> simp [fetchCsvRows, refreshCycle, cacheHitB, hf, eq_comm]

/-- Witness for C6: a cold-cache fetch failure surfaces as the 503 error. -/
theorem c6_error_taxonomy_witness :
    (fetchCsvRows 10 ⟨none, 0⟩ 5 (UpstreamEvent.fetchFail "x")).fst =
      Except.error (HError.http 503 ("Failed to fetch SDN data: " ++ "x")) :=
  (c6_error_taxonomy 10 ⟨none, 0⟩ 5 (UpstreamEvent.fetchFail "x")
      (HError.http 503 ("Failed to fetch SDN data: " ++ "x"))).mpr
    ⟨rfl, Or.inl ⟨"x", rfl, rfl⟩⟩

/-- C7: a refresh cycle that fails at the fetch step or the decode step leaves
the cache state (rows and timestamp) exactly as it was; the state changes only
through a successful refresh, which installs the new rows and `now`. -/
theorem c7_failure_preserves_cache (ttl : Nat) (st : CacheState) (now : Int)
    (ev : UpstreamEvent) :
    (∀ m, ev = UpstreamEvent.fetchFail m → (fetchCsvRows ttl st now ev).snd = st) ∧
    (∀ m, ev = UpstreamEvent.decodeFail m → (fetchCsvRows ttl st now ev).snd = st) ∧
    ((fetchCsvRows ttl st now ev).snd ≠ st →
      ∃ rows, ev = UpstreamEvent.success rows ∧ cacheHitB ttl st now = false ∧
        (fetchCsvRows ttl st now ev).snd = ⟨some rows, now⟩) := by
  obtain ⟨rcur, ts⟩ := st
  cases rcur with
  | none => cases ev <;> simp [fetchCsvRows, refreshCycle, cacheHitB]
  | some rs =>
    by_cases hf : now - ts < (ttl : Int)
    · simp [fetchCsvRows, hf]
    · cases ev <;> simp [fetchCsvRows, refreshCycle, cacheHitB, hf]

/-- Witness for C7: a stale cache with a prior snapshot is untouched by a
failing fetch. -/
theorem c7_failure_preserves_cache_witness :
    (fetchCsvRows 10 ⟨some [jqp], 0⟩ 20 (UpstreamEvent.fetchFail "down")).snd =
      ⟨some [jqp], 0⟩ :=
  (c7_failure_preserves_cache 10 ⟨some [jqp], 0⟩ 20
      (UpstreamEvent.fetchFail "down")).1 "down" rfl

/-- C8: `/healthz` never raises: a successful `_fetch_csv_rows` yields
status ok with the row count and source URL, and every failing one yields a
normal degraded response carrying the failure detail. -/
theorem c8_healthz_total (ttl : Nat) (url : String) (st : CacheState)
    (now : Int) (ev : UpstreamEvent) :
    (∀ rows st2, fetchCsvRows ttl st now ev = (Except.ok rows, st2) →
        healthz ttl url st now ev = (⟨"ok", some rows.length, url, none⟩, st2)) ∧
    (∀ e st2, fetchCsvRows ttl st now ev = (Except.error e, st2) →
        healthz ttl url st now ev = (⟨"degraded", none, url, some (detailOf e)⟩, st2)) := by
  constructor
  · intro rows st2 h
    simp [healthz, h]
  · intro e st2 h
    simp [healthz, h]

/-- Witness for C8: a cold cache plus fetch failure yields the degraded
health report, not an error. -/
theorem c8_healthz_total_witness :
    healthz 10 "u" ⟨none, 0⟩ 5 (UpstreamEvent.fetchFail "down") =
      (⟨"degraded", none, "u", some "Failed to fetch SDN data: down"⟩, ⟨none, 0⟩) :=
  (c8_healthz_total 10 "u" ⟨none, 0⟩ 5 (UpstreamEvent.fetchFail "down")).2
    (HError.http 503 "Failed to fetch SDN data: down") ⟨none, 0⟩ rfl

/-- Counterexample for C1: with a prior good snapshot (fetched at t=0) whose
age 20 exceeds TTL=10, a `/getsdn` call whose refresh fails at the fetch step
returns the 503 error — it does not fall back to the stale snapshot, contrary
to the claim that 503 occurs only when no prior snapshot exists. -/
theorem c1_counterexample :
    (⟨some [jqp], 0⟩ : CacheState).rows = some [jqp] ∧
    ¬ ((20 : Int) - (⟨some [jqp], 0⟩ : CacheState).ts < (10 : Int)) ∧
    (getsdn 10 200 ⟨some [jqp], 0⟩ 20 (UpstreamEvent.fetchFail "down") "ro").fst =
      Except.error (HError.http 503 "Failed to fetch SDN data: down") := by
  refine ⟨rfl, by decide, ?_⟩
  decide

/-- C1 (amended): once the snapshot is stale, a `/getsdn` call whose refresh
fails at the fetch step returns the 503 error even when a prior good snapshot
exists; that snapshot stays in the cache (it is not evicted) but is not served
to the query caller. -/
theorem c1_stale_fetch_failure_yields_503 (ttl limit : Nat) (st : CacheState)
    (now : Int) (name : String) (rs : List RawRow) (m : String)
    (hrows : st.rows = some rs) (hstale : ¬ now - st.ts < (ttl : Int))
    (hlen : 2 ≤ name.length) :
    getsdn ttl limit st now (UpstreamEvent.fetchFail m) name =
      (Except.error (HError.http 503 ("Failed to fetch SDN data: " ++ m)), st) := by
  unfold getsdn fetchCsvRows
  rw [if_neg (by omega), hrows]
  simp [hstale, refreshCycle]

/-- Witness for the amended C1. -/
theorem c1_stale_fetch_failure_yields_503_witness :
    getsdn 10 200 ⟨some [jqp], 0⟩ 20 (UpstreamEvent.fetchFail "down") "ro" =
      (Except.error (HError.http 503 ("Failed to fetch SDN data: " ++ "down")),
        ⟨some [jqp], 0⟩) :=
  c1_stale_fetch_failure_yields_503 10 200 ⟨some [jqp], 0⟩ 20 "ro" [jqp] "down"
    rfl (by decide) (by decide)

/-- Counterexample for C2: the query `" a "` has trimmed length 1, so the
claim says it is rejected with the validation error before any cache access;
the code instead validates the raw length (3), accepts it, and runs the
refresh cycle — a cold-cache fetch failure surfaces as 503, proving the
upstream was contacted. -/
theorem c2_counterexample :
    trimStr " a " = "a" ∧
    (getsdn 3600 200 ⟨none, 0⟩ 5 (UpstreamEvent.fetchFail "x") " a ").fst =
      Except.error (HError.http 503 "Failed to fetch SDN data: x") ∧
    (getsdn 3600 200 ⟨none, 0⟩ 5 (UpstreamEvent.fetchFail "x") " a ").fst ≠
      Except.error HError.validation := by
  refine ⟨by decide, by decide, by decide⟩

/-- C2 (amended): `/getsdn` rejects a query with the request-validation error,
before any cache access and independently of the cache contents, if and only
if the raw (untrimmed) `name` has length < 2; trimming happens only later,
when the accepted fragment is lower-cased and stripped for matching. -/
theorem c2_min_length_on_raw_name (ttl limit : Nat) (st : CacheState)
    (now : Int) (ev : UpstreamEvent) (name : String) :
    ((getsdn ttl limit st now ev name).fst = Except.error HError.validation ↔
      name.length < 2) ∧
    (name.length < 2 →
      getsdn ttl limit st now ev name = (Except.error HError.validation, st)) := by
  by_cases h : name.length < 2
  · refine ⟨⟨fun _ => h, fun _ => ?_⟩, fun _ => ?_⟩ <;> simp [getsdn, h]
  · refine ⟨⟨fun hv => absurd hv ?_, fun hlt => absurd hlt h⟩, fun hlt => absurd hlt h⟩
    unfold getsdn
    rw [if_neg h]
    rcases hfe : fetchCsvRows ttl st now ev with ⟨res, st2⟩
    cases res with
    | error e =>
        have := fetchCsvRows_ne_validation ttl st now ev
        rw [hfe] at this
        simpa using this
    | ok rows => simp

/-- Witness for the amended C2: the one-character query "a" (raw length 1) is
rejected with the cache untouched. -/
theorem c2_min_length_on_raw_name_witness :
    getsdn 3600 200 ⟨some [jqp], 100⟩ 110 (UpstreamEvent.fetchFail "x") "a" =
      (Except.error HError.validation, ⟨some [jqp], 100⟩) :=
  (c2_min_length_on_raw_name 3600 200 ⟨some [jqp], 100⟩ 110
      (UpstreamEvent.fetchFail "x") "a").2 (by decide)

/-- A row whose name contains "ab " but not " ab ". -/
def xaby : RawRow :=
  ⟨some "3", none, some "xab y", none, none, none, none, none, none⟩

/-- Counterexample for C3: the fragment " ab " is valid (trimmed length 2),
and the handler strips it before matching, so the row named "xab y" is in the
match set — and is returned by `/getsdn` — although the lower-cased fragment
" ab " itself is not a substring of the lower-cased name, contrary to the
claim's iff. -/
theorem c3_counterexample :
    trimStr (lowerStr " ab ") = "ab" ∧
    xaby ∈ sdnMatches [xaby] (trimStr (lowerStr " ab ")) ∧
    containsSub (lowerStr (xaby.name.getD "")).data (lowerStr " ab ").data = false ∧
    (getsdn 3600 200 ⟨some [xaby], 0⟩ 5 (UpstreamEvent.fetchFail "x") " ab ").fst =
      Except.ok ⟨1, [projectRecord xaby]⟩ := by
  refine ⟨by decide, by decide, by decide, by decide⟩

/-- C3 (amended): a row is in the match set iff the lower-cased and
whitespace-trimmed fragment is a contiguous codepoint substring of the
lower-cased `name` value, a missing `name` counting as the empty string;
for fragments without surrounding whitespace this is the lower-cased
fragment itself. -/
theorem c3_match_uses_trimmed_fragment (rows : List RawRow) (frag : String)
    (r : RawRow) :
    r ∈ sdnMatches rows (trimStr (lowerStr frag)) ↔
      r ∈ rows ∧
        containsSub (lowerStr (r.name.getD "")).data
          (trimStr (lowerStr frag)).data = true := by
  simp [sdnMatches, List.mem_filter]

/-- Witness for the amended C3: "John Q. Public" matches the fragments
"john", "PUBLIC" and "q. pu". -/
theorem c3_match_uses_trimmed_fragment_witness :
    jqp ∈ sdnMatches [jqp] (trimStr (lowerStr "john")) ∧
    jqp ∈ sdnMatches [jqp] (trimStr (lowerStr "PUBLIC")) ∧
    jqp ∈ sdnMatches [jqp] (trimStr (lowerStr "q. pu")) :=
  ⟨(c3_match_uses_trimmed_fragment [jqp] "john" jqp).mpr (by decide),
   (c3_match_uses_trimmed_fragment [jqp] "PUBLIC" jqp).mpr (by decide),
   (c3_match_uses_trimmed_fragment [jqp] "q. pu" jqp).mpr (by decide)⟩

/-- C4: on a successful row retrieval, `/getsdn` reports `count` as the
number of matches before truncation and `results` as the first `limit`
matches in original row order projected to records; therefore
`len(results) ≤ limit` and `len(results) ≤ count`. -/
theorem c4_count_before_truncation (ttl limit : Nat) (st : CacheState)
    (now : Int) (ev : UpstreamEvent) (name : String) (rows : List RawRow)
    (st2 : CacheState) (hlen : 2 ≤ name.length)
    (hfetch : fetchCsvRows ttl st now ev = (Except.ok rows, st2)) :
    getsdn ttl limit st now ev name =
      (Except.ok ⟨(sdnMatches rows (trimStr (lowerStr name))).length,
        ((sdnMatches rows (trimStr (lowerStr name))).take limit).map projectRecord⟩,
        st2) ∧
    (((sdnMatches rows (trimStr (lowerStr name))).take limit).map
        projectRecord).length ≤ limit ∧
    (((sdnMatches rows (trimStr (lowerStr name))).take limit).map
        projectRecord).length ≤
      (sdnMatches rows (trimStr (lowerStr name))).length := by
  refine ⟨?_, ?_, ?_⟩
  · unfold getsdn
    rw [if_neg (by omega), hfetch]
  · simp only [List.length_map, List.length_take]
    omega
  · simp only [List.length_map, List.length_take]
    omega

/-- Row "Jane Roe" from the spec's worked example. -/
def janeRoe : RawRow :=
  ⟨some "1", none, some "Jane Roe", none, none, none, none, none, none⟩

/-- Row "John Roe" from the spec's worked example. -/
def johnRoe : RawRow :=
  ⟨some "2", none, some "John Roe", none, none, none, none, none, none⟩

/-- Witness for C4: fragment "roe" over rows [Jane Roe, John Roe] with
limit 1 reports count 2 but only the first match projected. -/
theorem c4_count_before_truncation_witness :
    getsdn 3600 1 ⟨some [janeRoe, johnRoe], 0⟩ 5 (UpstreamEvent.fetchFail "x")
        "roe" =
      (Except.ok ⟨(sdnMatches [janeRoe, johnRoe] (trimStr (lowerStr "roe"))).length,
        ((sdnMatches [janeRoe, johnRoe] (trimStr (lowerStr "roe"))).take 1).map
          projectRecord⟩, ⟨some [janeRoe, johnRoe], 0⟩) ∧
    (sdnMatches [janeRoe, johnRoe] (trimStr (lowerStr "roe"))).length = 2 ∧
    ((sdnMatches [janeRoe, johnRoe] (trimStr (lowerStr "roe"))).take 1).map
        projectRecord = [projectRecord janeRoe] :=
  ⟨(c4_count_before_truncation 3600 1 ⟨some [janeRoe, johnRoe], 0⟩ 5
      (UpstreamEvent.fetchFail "x") "roe" [janeRoe, johnRoe]
      ⟨some [janeRoe, johnRoe], 0⟩ (by decide) rfl).1,
   by decide, by decide⟩

/-- Counterexample for C9: two concurrent callers against the cold initial
cache, both scheduled through their cache-check segment before either GET
resolves, issue two upstream fetches (both tasks end up suspended at their
own `await client.get`), not one: the code has no coalescing guard. -/
theorem c9_counterexample :
    initialCache.rows = none ∧
    (stepRun 3600 (stepRun 3600 ⟨initialCache, [Phase.start, Phase.start], 0⟩
        0 5) 1 5).fetches = 2 ∧
    (stepRun 3600 (stepRun 3600 ⟨initialCache, [Phase.start, Phase.start], 0⟩
        0 5) 1 5).tasks = [Phase.awaitingFetch 5, Phase.awaitingFetch 5] := by
  refine ⟨rfl, by decide, by decide⟩

/-- C9 (amended): concurrent refreshes are not coalesced: every caller whose
cache-check segment runs while the hit test fails — the cache is cold (no
snapshot) or stale (snapshot at or past the TTL) — issues its own upstream
fetch and suspends at its own await, so a burst of simultaneous cache-miss
readers issues one fetch per reader. -/
theorem c9_every_miss_reader_fetches (ttl : Nat) (s : Sys) (i : Nat)
    (now : Int) (htask : s.tasks.get? i = some Phase.start)
    (hmiss : cacheHitB ttl s.cache now = false) :
    stepRun ttl s i now =
      { s with tasks := s.tasks.set i (Phase.awaitingFetch now),
               fetches := s.fetches + 1 } := by
  obtain ⟨⟨rcur, ts⟩, tasks, fetches⟩ := s
  cases rcur with
  | none =>
      unfold stepRun
      rw [htask]
  | some rs =>
      have hns : ¬ (now - ts < (ttl : Int)) := by simpa [cacheHitB] using hmiss
      simp only [stepRun, htask]
      rw [if_neg hns]

/-- Witness for the amended C9: one cold-cache reader and one stale-cache
reader (snapshot of age 20 under TTL 10) each issue their own fetch. -/
theorem c9_every_miss_reader_fetches_witness :
    stepRun 3600 ⟨initialCache, [Phase.start, Phase.start], 0⟩ 0 5 =
      ⟨initialCache, [Phase.awaitingFetch 5, Phase.start], 1⟩ ∧
    stepRun 10 ⟨⟨some [jqp], 0⟩, [Phase.start], 0⟩ 0 20 =
      ⟨⟨some [jqp], 0⟩, [Phase.awaitingFetch 20], 1⟩ :=
  ⟨c9_every_miss_reader_fetches 3600
      ⟨initialCache, [Phase.start, Phase.start], 0⟩ 0 5 rfl rfl,
   c9_every_miss_reader_fetches 10
      ⟨⟨some [jqp], 0⟩, [Phase.start], 0⟩ 0 20 rfl (by decide)⟩

/-- C10: a refresh that succeeds with zero decoded data rows installs a
genuine empty snapshot: within its TTL window every further `_fetch_csv_rows`
is a hit on it (no upstream contact, whatever the upstream would do),
`/getsdn` answers count 0 with empty results, `/healthz` reports ok with
0 rows — while a snapshot-less cache is never a hit. -/
theorem c10_empty_snapshot_is_cached (ttl limit : Nat) (url : String)
    (st : CacheState) (now now2 : Int) (ev2 : UpstreamEvent) (name : String)
    (hmiss : cacheHitB ttl st now = false)
    (hfresh : now2 - now < (ttl : Int))
    (hlen : 2 ≤ name.length) :
    fetchCsvRows ttl st now (UpstreamEvent.success []) =
      (Except.ok [], ⟨some [], now⟩) ∧
    fetchCsvRows ttl ⟨some [], now⟩ now2 ev2 =
      (Except.ok ([] : List RawRow), ⟨some [], now⟩) ∧
    getsdn ttl limit ⟨some [], now⟩ now2 ev2 name =
      (Except.ok ⟨0, []⟩, ⟨some [], now⟩) ∧
    healthz ttl url ⟨some [], now⟩ now2 ev2 =
      (⟨"ok", some 0, url, none⟩, ⟨some [], now⟩) ∧
    cacheHitB ttl ⟨some [], now⟩ now2 = true ∧
    (∀ t : Int, cacheHitB ttl ⟨none, t⟩ now2 = false) := by
  have h1 : fetchCsvRows ttl st now (UpstreamEvent.success []) =
      (Except.ok [], ⟨some [], now⟩) := by
    obtain ⟨rcur, ts⟩ := st
    cases rcur with
    | none => rfl
    | some rs =>
        have hns : ¬ (now - ts < (ttl : Int)) := by simpa [cacheHitB] using hmiss
        simp [fetchCsvRows, refreshCycle, hns]
  have h2 : fetchCsvRows ttl ⟨some [], now⟩ now2 ev2 =
      (Except.ok ([] : List RawRow), ⟨some [], now⟩) := by
    simp [fetchCsvRows, hfresh]
  refine ⟨h1, h2, ?_, ?_, ?_, fun t => rfl⟩
  · unfold getsdn
    rw [if_neg (by omega), h2]
    simp [sdnMatches]
  · simp [healthz, h2]
  · simp [cacheHitB, hfresh]

/-- Witness for C10 at TTL 3600: refresh at t=0 with zero rows, reads at
t=10. -/
theorem c10_empty_snapshot_is_cached_witness :
    fetchCsvRows 3600 initialCache 0 (UpstreamEvent.success []) =
      (Except.ok [], ⟨some [], 0⟩) ∧
    fetchCsvRows 3600 ⟨some [], 0⟩ 10 (UpstreamEvent.fetchFail "x") =
      (Except.ok ([] : List RawRow), ⟨some [], 0⟩) ∧
    getsdn 3600 200 ⟨some [], 0⟩ 10 (UpstreamEvent.fetchFail "x") "ab" =
      (Except.ok ⟨0, []⟩, ⟨some [], 0⟩) ∧
    healthz 3600 "u" ⟨some [], 0⟩ 10 (UpstreamEvent.fetchFail "x") =
      (⟨"ok", some 0, "u", none⟩, ⟨some [], 0⟩) ∧
    cacheHitB 3600 ⟨some [], 0⟩ 10 = true ∧
    cacheHitB 3600 ⟨none, 7⟩ 10 = false := by
  have h := c10_empty_snapshot_is_cached 3600 200 "u" initialCache 0 10
    (UpstreamEvent.fetchFail "x") "ab" (by decide) (by decide) (by decide)
  exact ⟨h.1, h.2.1, h.2.2.1, h.2.2.2.1, h.2.2.2.2.1, h.2.2.2.2.2 7⟩
